import Mathlib

/-
Verification of the browser backup/restore core of the aurora-multitool
repository (src/tools/backup_browser.py and src/tools/restore_browser_backup.py)
against its natural-language specification.

The Python code is shallowly embedded: the filesystem is a finite list of
files (relative path plus content as a list of bytes), filesystem faults
(a copy raising, a read during verification raising, a directory deletion
raising) are supplied by explicit oracle functions, and every translated
operation is an executable Lean function over that data.
-/

namespace Aurora

/-! ## String utilities

Python substring containment (the `in` operator on str) and the small
string operations the source uses, modelled over the character list of a
Lean String. -/

/-- Whether the first character list is an initial segment of the second. -/
def listStartsWith : List Char → List Char → Bool
  | [], _ => true
  | _ :: _, [] => false
  | a :: as, b :: bs => a == b && listStartsWith as bs

/-- Whether the first character list occurs contiguously inside the second. -/
def occursIn (sub : List Char) : List Char → Bool
  | [] => sub.isEmpty
  | c :: rest => listStartsWith sub (c :: rest) || occursIn sub rest

/-- Python `sub in s` for strings: substring containment. -/
def pyIn (sub s : String) : Bool :=
  occursIn sub.data s.data

/-- ASCII lower-casing of one character (all the strings involved are
ASCII). -/
def charToLower (c : Char) : Char :=
  if 65 ≤ c.toNat && c.toNat ≤ 90 then Char.ofNat (c.toNat + 32) else c

/-- Python str.lower for the ASCII strings the source compares. -/
def strToLower (s : String) : String :=
  ⟨s.data.map charToLower⟩

/-- Python str.endswith. -/
def strEndsWith (s suffix : String) : Bool :=
  listStartsWith suffix.data.reverse s.data.reverse

/-- Python slicing s[:-n]: drop the last n characters. -/
def strDropRight (s : String) (n : Nat) : String :=
  ⟨(s.data.reverse.drop n).reverse⟩

/-- Python `str(rel_path / file)` with the empty string standing for the
Path(".") produced by relative_to at the walk root. -/
def joinRel (dir nm : String) : String :=
  if dir = "" then nm else dir ++ "/" ++ nm

/-! ## Configuration (backup_browser.py, load_config, lines 39-77)

The persisted JSON configuration.  A loaded file is a record of optional
fields (a field absent from the JSON object is `none`); `load_config`
merges it over the built-in defaults exactly as the Python
`{**default_config, **json.load(f)}` does for the recognized fields, and a
malformed file (a parse exception) falls back to the full defaults. -/

structure Config where
  max_workers : Nat
  verify_copies : Bool
  compression : Bool
  retention_days : Nat
  excluded_files : List String
  browsers : List (String × Bool)
  backup_options : List (String × Bool)
  deriving Repr, DecidableEq

/-- The built-in default configuration (backup_browser.py lines 42-64). -/
def default_config : Config :=
  { max_workers := 4
    verify_copies := true
    compression := true
    retention_days := 30
    excluded_files := [".lock", "Cache", "GPUCache", "CacheDictionary"]
    browsers :=
      [("chrome", true), ("firefox", true), ("edge", true),
       ("brave", true), ("opera", true), ("vivaldi", true)]
    backup_options :=
      [("bookmarks", true), ("history", true), ("passwords", true),
       ("extensions", true), ("cookies", true), ("preferences", true)] }

/-- A parsed configuration file: each recognized top-level field is present
or absent.  (Unknown extra fields are ignored by the claims and carried
nowhere.) -/
structure ConfigFile where
  max_workers : Option Nat := none
  verify_copies : Option Bool := none
  compression : Option Bool := none
  retention_days : Option Nat := none
  excluded_files : Option (List String) := none
  browsers : Option (List (String × Bool)) := none
  backup_options : Option (List (String × Bool)) := none

/-- The shallow dictionary merge `{**default_config, **loaded}`: a field
present in the loaded file wins wholesale, an absent field keeps its
default. -/
def mergeConfig (d : Config) (f : ConfigFile) : Config :=
  { max_workers := f.max_workers.getD d.max_workers
    verify_copies := f.verify_copies.getD d.verify_copies
    compression := f.compression.getD d.compression
    retention_days := f.retention_days.getD d.retention_days
    excluded_files := f.excluded_files.getD d.excluded_files
    browsers := f.browsers.getD d.browsers
    backup_options := f.backup_options.getD d.backup_options }

/-- load_config (backup_browser.py lines 39-77): a successfully parsed
file is merged over the defaults; a parse exception is caught, logged and
the defaults are used (non-fatal). -/
def load_config (parsed : Except Unit ConfigFile) : Config :=
  match parsed with
  | Except.ok f => mergeConfig default_config f
  | Except.error _ => default_config

/-! ## FileSelector (backup_browser.py, lines 346-408) -/

/-- _get_browser_data_patterns (lines 346-381): the static pattern table,
keyed by application family and data category.  A lookup outside the table
(impossible for the keys the source ever produces) yields the empty list. -/
def browser_data_patterns (family data_type : String) : List String :=
  if family = "chrome_based" then
    if data_type = "bookmarks" then ["Bookmarks", "Bookmarks.bak"]
    else if data_type = "history" then ["History", "Visited Links"]
    else if data_type = "passwords" then ["Login Data", "Login Data-journal"]
    else if data_type = "extensions" then ["Extensions/*"]
    else if data_type = "cookies" then ["Cookies", "Cookies-journal"]
    else if data_type = "preferences" then ["Preferences", "Secure Preferences"]
    else []
  else if family = "firefox" then
    if data_type = "bookmarks" then ["places.sqlite", "bookmarkbackups/*"]
    else if data_type = "history" then ["places.sqlite", "places.sqlite-wal"]
    else if data_type = "passwords" then ["logins.json", "key4.db"]
    else if data_type = "extensions" then ["extensions/*", "extensions.json"]
    else if data_type = "cookies" then ["cookies.sqlite"]
    else if data_type = "preferences" then ["prefs.js", "user.js"]
    else []
  else if family = "opera" then
    if data_type = "bookmarks" then ["Bookmarks", "Bookmarks.bak"]
    else if data_type = "history" then ["History", "Visited Links"]
    else if data_type = "passwords" then ["Login Data", "Login Data-journal"]
    else if data_type = "extensions" then ["Extensions/*"]
    else if data_type = "cookies" then ["Cookies", "Cookies-journal"]
    else if data_type = "preferences" then ["Preferences"]
    else []
  else if family = "operagx" then
    if data_type = "bookmarks" then ["Bookmarks", "Bookmarks.bak"]
    else if data_type = "history" then ["History", "Visited Links"]
    else if data_type = "passwords" then ["Login Data", "Login Data-journal"]
    else if data_type = "extensions" then ["Extensions/*"]
    else if data_type = "cookies" then ["Cookies", "Cookies-journal"]
    else if data_type = "preferences" then ["Preferences", "GX Settings"]
    else []
  else []

/-- _should_backup_file (lines 383-408): classify the browser into a
pattern family, return true immediately when no data category is enabled,
otherwise accept the file iff some enabled category has a matching
pattern (directory patterns ending in a wildcard marker match when their
stem occurs in the path). -/
def should_backup_file (backup_options : List (String × Bool))
    (file_name : String) (browser_type : String) : Bool :=
  let family :=
    if pyIn "firefox" (strToLower browser_type) then "firefox"
    else if pyIn "opera" (strToLower browser_type) then "opera"
    else "chrome_based"
  if !(backup_options.any (fun p => p.2)) then true
  else
    backup_options.any (fun p =>
      p.2 && (browser_data_patterns family p.1).any (fun pat =>
        if strEndsWith pat "/*" then pyIn (strDropRight pat 2) file_name
        else pyIn pat file_name))

/-! ## CopyEngine (backup_browser.py, verify_copy lines 208-221 and
backup_browser lines 223-277)

A file produced by the os.walk enumeration: the directory part of its path
relative to the walked source root (empty string at the root itself), its
base name, and its content as a list of bytes. -/

structure WalkEntry where
  relDir : String
  nm : String
  content : List Nat
  deriving Repr, DecidableEq

/-- One entry of the source_paths list handed to backup_browser: the
directory name (source.name, which becomes the destination subdirectory),
whether the path exists on disk, and the files the walk enumerates under
it. -/
structure SourceRoot where
  rootName : String
  existsOnDisk : Bool
  files : List WalkEntry
  deriving Repr, DecidableEq

/-- Filesystem fault oracle for one backup run: whether shutil.copy2
raises for a given destination path, what content the destination holds
after a non-raising copy (a faithful filesystem returns the source
content unchanged), and whether reading the files back during
verify_copy raises. -/
structure CopyOracle where
  copyFails : String → Bool
  copiedContent : String → List Nat → List Nat
  verifyFails : String → Bool

/-- The content hash of verify_copy.  The source uses
hashlib.sha256(...).hexdigest(); it is modelled as a deterministic
FNV-style fold of the content bytes — every claim depends only on the
hash being a deterministic function of the content, never on a property
of SHA-256 itself. -/
def sha256 (content : List Nat) : Nat :=
  content.foldl (fun h b => ((h + b % 256 + 1) * 1099511628211) % (2 ^ 64))
    14695981039346656037

/-- verify_copy (lines 208-221): immediately true when verify_copies is
off; a read exception is caught, logged and yields false; otherwise the
two content hashes are compared.  Returns the boolean together with the
error lines logged. -/
def verify_copy (cfg : Config) (oracle : CopyOracle) (destPath : String)
    (srcContent dstContent : List Nat) : Bool × List String :=
  if !cfg.verify_copies then (true, [])
  else if oracle.verifyFails destPath then
    (false, ["Verification failed: " ++ destPath])
  else (sha256 srcContent == sha256 dstContent, [])

/-- The destination path of a walked file, relative to the per-browser
backup directory: source.name / rel_path / file (lines 234, 248, 263). -/
def destPathOf (rootName : String) (f : WalkEntry) : String :=
  joinRel rootName (joinRel f.relDir f.nm)

/-- The outcome of one backup_browser invocation: the returned success
flag, the destination files created (path and content), and the per-file
error lines logged. -/
structure BackupResult where
  success : Bool
  destFiles : List (String × List Nat)
  errors : List String
  deriving Repr, DecidableEq

/-- The body of the inner file loop of backup_browser (lines 250-272):
skip when the base name contains an excluded substring, skip when
_should_backup_file rejects the relative path, then copy inside a
per-file try: a raising copy logs an error and creates nothing here, a
completed copy creates the destination file and sets success when
verify_copy approves. -/
def processFile (cfg : Config) (oracle : CopyOracle)
    (browser_name rootName : String) (acc : BackupResult) (f : WalkEntry) :
    BackupResult :=
  if cfg.excluded_files.any (fun ex => pyIn ex f.nm) then acc
  else if !(should_backup_file cfg.backup_options (joinRel f.relDir f.nm)
      browser_name) then acc
  else
    let dstPath := destPathOf rootName f
    if oracle.copyFails dstPath then
      { acc with errors := acc.errors ++ ["Error copying " ++ f.nm] }
    else
      let dstContent := oracle.copiedContent dstPath f.content
      let v := verify_copy cfg oracle dstPath f.content dstContent
      { success := acc.success || v.1
        destFiles := acc.destFiles ++ [(dstPath, dstContent)]
        errors := acc.errors ++ v.2 }

/-- backup_browser (lines 223-277): success starts false, each existing
source root is walked and every enumerated file is run through the file
loop; success is whatever the loop accumulated. -/
def backup_browser (cfg : Config) (oracle : CopyOracle)
    (browser_name : String) (source_paths : List SourceRoot) : BackupResult :=
  source_paths.foldl
    (fun acc root =>
      if !root.existsOnDisk then acc
      else root.files.foldl (processFile cfg oracle browser_name root.rootName)
        acc)
    { success := false, destFiles := [], errors := [] }

/-- Spec-side notion for the success policy: a file counted as copied
successfully by one invocation — enumerated under an existing root, not
excluded by name, accepted by the selector, its copy completed, and
verify_copy approved it. -/
def copied_successfully (cfg : Config) (oracle : CopyOracle)
    (browser_name rootName : String) (f : WalkEntry) : Bool :=
  !(cfg.excluded_files.any (fun ex => pyIn ex f.nm)) &&
  should_backup_file cfg.backup_options (joinRel f.relDir f.nm) browser_name &&
  !oracle.copyFails (destPathOf rootName f) &&
  (verify_copy cfg oracle (destPathOf rootName f) f.content
    (oracle.copiedContent (destPathOf rootName f) f.content)).1

/-- The oracle of a fault-free, faithful filesystem. -/
def faithfulOracle : CopyOracle :=
  { copyFails := fun _ => false
    copiedContent := fun _ c => c
    verifyFails := fun _ => false }

/-! ## TaskScheduler (backup_browser.py, run lines 300-332)

One dispatched task is a browser id together with the outcome of its
future: either the boolean the worker returned, or the exception its
result call re-raised. -/

/-- The result-collection body of run (lines 317-323): future.result()
inside a try stores the returned boolean, an exception is logged and
stores false for that browser id. -/
def resultOf (t : String × Except Unit Bool) : String × Bool :=
  match t.2 with
  | Except.ok b => (t.1, b)
  | Except.error _ => (t.1, false)

/-- The result-collection loop of run (lines 316-323): every dispatched
future is visited and exactly one entry is recorded per browser id. -/
def run_scheduler (tasks : List (String × Except Unit Bool)) :
    List (String × Bool) :=
  tasks.foldl (fun results t => results ++ [resultOf t]) []

/-! ## RetentionSweeper (backup_browser.py, cleanup_old_backups
lines 279-298) -/

/-- One immediate child of the backup root: its name, its st_mtime in
epoch seconds, and whether it is a directory. -/
structure DirEntry where
  nm : String
  mtime : Int
  isDir : Bool
  deriving Repr, DecidableEq

/-- The iteration of cleanup_old_backups over backup_root.iterdir()
(lines 290-295), inside the single try of lines 281-298: a directory
whose age strictly exceeds retention_seconds is deleted; when that
deletion raises, the exception escapes the loop to the outer handler,
which logs it — so iteration stops there, with the second component true
recording that the error was logged (and the call still returns
normally: non-fatal).  The first component lists the directories
actually removed, in iteration order. -/
def sweepDirs (retention_seconds now : Int) (rmFail : String → Bool) :
    List DirEntry → List String × Bool
  | [] => ([], false)
  | d :: rest =>
    if d.isDir then
      if now - d.mtime > retention_seconds then
        if rmFail d.nm then ([], true)
        else
          let r := sweepDirs retention_seconds now rmFail rest
          (d.nm :: r.1, r.2)
      else sweepDirs retention_seconds now rmFail rest
    else sweepDirs retention_seconds now rmFail rest

/-- cleanup_old_backups (lines 279-298): retention_seconds is
retention_days * 24 * 60 * 60, then the sweep runs over the children of
the backup root. -/
def cleanup_old_backups (cfg : Config) (now : Int) (rmFail : String → Bool)
    (dirs : List DirEntry) : List String × Bool :=
  sweepDirs ((cfg.retention_days : Int) * 24 * 60 * 60) now rmFail dirs

/-! ## RestoreEngine (restore_browser_backup.py, restore_browser
lines 124-152) -/

/-- Filesystem fault oracle for a restore run: whether shutil.copy2
raises for a destination file, and the content the destination holds
after a non-raising copy. -/
structure RestoreOracle where
  copyFails : String → Bool
  copiedContent : String → List Nat → List Nat

/-- The outcome of one restore_browser invocation: the returned flag, the
destination files written (relative path and content), and the per-file
error lines logged. -/
structure RestoreResult where
  success : Bool
  restored : List (String × List Nat)
  errors : List String
  deriving Repr, DecidableEq

/-- The per-file body of restore_browser (lines 137-147): each file found
under the backup is copied inside a per-file try; a raising copy logs an
error and the loop continues. -/
def restoreFile (oracle : RestoreOracle) (acc : RestoreResult)
    (f : String × List Nat) : RestoreResult :=
  if oracle.copyFails f.1 then
    { acc with errors := acc.errors ++ ["Error restoring " ++ f.1] }
  else
    { acc with restored := acc.restored ++ [(f.1, oracle.copiedContent f.1 f.2)] }

/-- restore_browser (lines 124-152): false immediately when the backup
source path does not exist; otherwise every file is run through the
per-file loop and true is returned. -/
def restore_browser (oracle : RestoreOracle) (sourceExists : Bool)
    (files : List (String × List Nat)) : RestoreResult :=
  if !sourceExists then { success := false, restored := [], errors := [] }
  else files.foldl (restoreFile oracle) { success := true, restored := [], errors := [] }

/-- The restore oracle of a fault-free, faithful filesystem. -/
def faithfulRestore : RestoreOracle :=
  { copyFails := fun _ => false
    copiedContent := fun _ c => c }

/-! ## Helper lemmas: how backup_browser accumulates its three outputs -/

lemma processFile_success (cfg : Config) (oracle : CopyOracle)
    (bn rn : String) (acc : BackupResult) (f : WalkEntry) :
    (processFile cfg oracle bn rn acc f).success =
      (acc.success || copied_successfully cfg oracle bn rn f) := by
  simp only [processFile, copied_successfully]
  cases h1 : cfg.excluded_files.any (fun ex => pyIn ex f.nm) <;>
    cases h2 : should_backup_file cfg.backup_options (joinRel f.relDir f.nm) bn <;>
      cases h3 : oracle.copyFails (destPathOf rn f) <;>
        simp [h1, h2, h3]

lemma foldFiles_success (cfg : Config) (oracle : CopyOracle) (bn rn : String)
    (files : List WalkEntry) :
    ∀ acc : BackupResult,
      (files.foldl (processFile cfg oracle bn rn) acc).success =
        (acc.success || files.any (copied_successfully cfg oracle bn rn)) := by
  induction files with
  | nil => intro acc; simp
  | cons f fs ih =>
    intro acc
    simp only [List.foldl_cons, List.any_cons]
    rw [ih, processFile_success, Bool.or_assoc]

lemma backup_success (cfg : Config) (oracle : CopyOracle) (bn : String)
    (roots : List SourceRoot) :
    (backup_browser cfg oracle bn roots).success =
      roots.any (fun r => r.existsOnDisk &&
        r.files.any (copied_successfully cfg oracle bn r.rootName)) := by
  have main : ∀ (rs : List SourceRoot) (acc : BackupResult),
      (rs.foldl (fun acc root => if !root.existsOnDisk then acc
        else root.files.foldl (processFile cfg oracle bn root.rootName) acc)
          acc).success =
        (acc.success || rs.any (fun r => r.existsOnDisk &&
          r.files.any (copied_successfully cfg oracle bn r.rootName))) := by
    intro rs
    induction rs with
    | nil => intro acc; simp
    | cons r rest ih =>
      intro acc
      simp only [List.foldl_cons, List.any_cons]
      cases hr : r.existsOnDisk with
      | false =>
        simp only [hr, Bool.not_false, if_true, Bool.false_and, Bool.false_or]
        exact ih acc
      | true =>
        simp only [hr, Bool.not_true, Bool.false_eq_true, if_false, Bool.true_and]
        rw [ih, foldFiles_success, Bool.or_assoc]
  have h := main roots { success := false, destFiles := [], errors := [] }
  simp only [Bool.false_or] at h
  exact h

/-- A file for which the copy is attempted and completes: enumerated, not
skipped by either filter, and shutil.copy2 did not raise.  Exactly these
files obtain a destination entry. -/
def file_attempted (cfg : Config) (oracle : CopyOracle)
    (bn rn : String) (f : WalkEntry) : Bool :=
  !(cfg.excluded_files.any (fun ex => pyIn ex f.nm)) &&
  should_backup_file cfg.backup_options (joinRel f.relDir f.nm) bn &&
  !oracle.copyFails (destPathOf rn f)

/-- The destination entry a completed copy creates for a walked file. -/
def entryOf (oracle : CopyOracle) (rn : String) (f : WalkEntry) :
    String × List Nat :=
  (destPathOf rn f, oracle.copiedContent (destPathOf rn f) f.content)

lemma processFile_destFiles (cfg : Config) (oracle : CopyOracle)
    (bn rn : String) (acc : BackupResult) (f : WalkEntry) :
    (processFile cfg oracle bn rn acc f).destFiles =
      acc.destFiles ++
        (if file_attempted cfg oracle bn rn f then [entryOf oracle rn f]
         else []) := by
  simp only [processFile, file_attempted, entryOf]
  cases h1 : cfg.excluded_files.any (fun ex => pyIn ex f.nm) <;>
    cases h2 : should_backup_file cfg.backup_options (joinRel f.relDir f.nm) bn <;>
      cases h3 : oracle.copyFails (destPathOf rn f) <;>
        simp [h1, h2, h3]

lemma foldFiles_destFiles (cfg : Config) (oracle : CopyOracle) (bn rn : String)
    (files : List WalkEntry) :
    ∀ acc : BackupResult,
      (files.foldl (processFile cfg oracle bn rn) acc).destFiles =
        acc.destFiles ++ files.flatMap (fun f =>
          if file_attempted cfg oracle bn rn f then [entryOf oracle rn f]
          else []) := by
  induction files with
  | nil => intro acc; simp
  | cons f fs ih =>
    intro acc
    simp only [List.foldl_cons, List.flatMap_cons]
    rw [ih, processFile_destFiles, List.append_assoc]

/-- The destination files one backup run creates, characterized root by
root and file by file. -/
def destEntriesOf (cfg : Config) (oracle : CopyOracle) (bn : String)
    (roots : List SourceRoot) : List (String × List Nat) :=
  roots.flatMap (fun r =>
    if r.existsOnDisk then
      r.files.flatMap (fun f =>
        if file_attempted cfg oracle bn r.rootName f then
          [entryOf oracle r.rootName f]
        else [])
    else [])

lemma backup_destFiles (cfg : Config) (oracle : CopyOracle) (bn : String)
    (roots : List SourceRoot) :
    (backup_browser cfg oracle bn roots).destFiles =
      destEntriesOf cfg oracle bn roots := by
  have main : ∀ (rs : List SourceRoot) (acc : BackupResult),
      (rs.foldl (fun acc root => if !root.existsOnDisk then acc
        else root.files.foldl (processFile cfg oracle bn root.rootName) acc)
          acc).destFiles =
        acc.destFiles ++ destEntriesOf cfg oracle bn rs := by
    intro rs
    induction rs with
    | nil => intro acc; simp [destEntriesOf]
    | cons r rest ih =>
      intro acc
      simp only [destEntriesOf, List.foldl_cons, List.flatMap_cons]
      cases hr : r.existsOnDisk with
      | false =>
        simp only [hr, Bool.not_false, if_true, Bool.false_eq_true, if_false,
          List.nil_append]
        rw [ih]
        rfl
      | true =>
        simp only [hr, Bool.not_true, Bool.false_eq_true, if_false, if_true]
        rw [ih, foldFiles_destFiles, List.append_assoc]
        rfl
  have h := main roots { success := false, destFiles := [], errors := [] }
  simp only [List.nil_append] at h
  exact h

/-- The per-file error lines one file contributes. -/
def perFileErrors (cfg : Config) (oracle : CopyOracle)
    (bn rn : String) (f : WalkEntry) : List String :=
  if cfg.excluded_files.any (fun ex => pyIn ex f.nm) then []
  else if !(should_backup_file cfg.backup_options (joinRel f.relDir f.nm) bn)
    then []
  else if oracle.copyFails (destPathOf rn f) then ["Error copying " ++ f.nm]
  else (verify_copy cfg oracle (destPathOf rn f) f.content
    (oracle.copiedContent (destPathOf rn f) f.content)).2

lemma processFile_errors (cfg : Config) (oracle : CopyOracle)
    (bn rn : String) (acc : BackupResult) (f : WalkEntry) :
    (processFile cfg oracle bn rn acc f).errors =
      acc.errors ++ perFileErrors cfg oracle bn rn f := by
  simp only [processFile, perFileErrors]
  cases h1 : cfg.excluded_files.any (fun ex => pyIn ex f.nm) <;>
    cases h2 : should_backup_file cfg.backup_options (joinRel f.relDir f.nm) bn <;>
      cases h3 : oracle.copyFails (destPathOf rn f) <;>
        simp [h1, h2, h3]

lemma perFileErrors_nil (cfg : Config) (oracle : CopyOracle)
    (bn rn : String) (f : WalkEntry)
    (hc : ∀ p, oracle.copyFails p = false)
    (hv : ∀ p, oracle.verifyFails p = false) :
    perFileErrors cfg oracle bn rn f = [] := by
  simp only [perFileErrors, hc, hv, verify_copy]
  cases h1 : cfg.excluded_files.any (fun ex => pyIn ex f.nm) <;>
    cases h2 : should_backup_file cfg.backup_options (joinRel f.relDir f.nm) bn <;>
      cases h3 : cfg.verify_copies <;>
        simp [h1, h2, h3, hv]

lemma foldFiles_errors (cfg : Config) (oracle : CopyOracle) (bn rn : String)
    (files : List WalkEntry)
    (hc : ∀ p, oracle.copyFails p = false)
    (hv : ∀ p, oracle.verifyFails p = false) :
    ∀ acc : BackupResult,
      (files.foldl (processFile cfg oracle bn rn) acc).errors = acc.errors := by
  induction files with
  | nil => intro acc; simp
  | cons f fs ih =>
    intro acc
    simp only [List.foldl_cons]
    rw [ih, processFile_errors, perFileErrors_nil cfg oracle bn rn f hc hv,
      List.append_nil]

lemma backup_errors_nil (cfg : Config) (oracle : CopyOracle) (bn : String)
    (roots : List SourceRoot)
    (hc : ∀ p, oracle.copyFails p = false)
    (hv : ∀ p, oracle.verifyFails p = false) :
    (backup_browser cfg oracle bn roots).errors = [] := by
  have main : ∀ (rs : List SourceRoot) (acc : BackupResult),
      (rs.foldl (fun acc root => if !root.existsOnDisk then acc
        else root.files.foldl (processFile cfg oracle bn root.rootName) acc)
          acc).errors = acc.errors := by
    intro rs
    induction rs with
    | nil => intro acc; rfl
    | cons r rest ih =>
      intro acc
      simp only [List.foldl_cons]
      cases hr : r.existsOnDisk with
      | false =>
        simp only [hr, Bool.not_false, if_true]
        exact ih acc
      | true =>
        simp only [hr, Bool.not_true, Bool.false_eq_true, if_false]
        rw [ih, foldFiles_errors cfg oracle bn r.rootName r.files hc hv]
  exact main roots { success := false, destFiles := [], errors := [] }

/-! ## Claim theorems -/

/-- Oracle of a filesystem on which the copy of Default/Bookmarks lands
corrupted while every operation completes without raising. -/
def corruptOracle : CopyOracle :=
  { copyFails := fun _ => false
    copiedContent := fun p c => if p = "Default/Bookmarks" then [9] else c
    verifyFails := fun _ => false }

/-- Claim C1, counterexample: verify is on and the destination content of
Default/Bookmarks hashes differently from its source, yet the run records
no per-file error at all for the mismatch (errors is empty) — the file is
merely not counted towards success — while the other file is still
attempted and copied.  The claim says the mismatch is recorded as a
per-file error, which is false on the code. -/
theorem verify_mismatch_not_recorded_cex :
    default_config.verify_copies = true ∧
    sha256 [1, 2] ≠ sha256 [9] ∧
    (backup_browser default_config corruptOracle "chrome"
      [⟨"Default", true, [⟨"", "Bookmarks", [1, 2]⟩, ⟨"", "History", [3]⟩]⟩]) =
      { success := true
        destFiles := [("Default/Bookmarks", [9]), ("Default/History", [3])]
        errors := [] } :=
  ⟨rfl, by decide, by decide⟩

/-- Claim C1 (amended): if verify is set and the destination hash differs
from the source hash, the file is merely not counted as copied
successfully — no per-file error is recorded for a pure hash mismatch —
and every other file of the task is still attempted: whatever faults the
oracle injects at other files, a run with no raising copy and no raising
verification logs no error line at all, a hash mismatch makes the file
count as unsuccessful, and every enumerated, unfiltered file whose copy
completes obtains its destination entry. -/
theorem per_file_failure_isolation :
    (∀ (cfg : Config) (oracle : CopyOracle) (bn : String)
      (roots : List SourceRoot),
      (∀ p, oracle.copyFails p = false) → (∀ p, oracle.verifyFails p = false) →
      (backup_browser cfg oracle bn roots).errors = []) ∧
    (∀ (cfg : Config) (oracle : CopyOracle) (bn rn : String) (f : WalkEntry),
      cfg.verify_copies = true →
      oracle.verifyFails (destPathOf rn f) = false →
      sha256 f.content ≠
        sha256 (oracle.copiedContent (destPathOf rn f) f.content) →
      copied_successfully cfg oracle bn rn f = false) ∧
    (∀ (cfg : Config) (oracle : CopyOracle) (bn : String)
      (roots : List SourceRoot) (r : SourceRoot) (f : WalkEntry),
      r ∈ roots → r.existsOnDisk = true → f ∈ r.files →
      file_attempted cfg oracle bn r.rootName f = true →
      entryOf oracle r.rootName f ∈
        (backup_browser cfg oracle bn roots).destFiles) := by
  refine ⟨?_, ?_, ?_⟩
  · intro cfg oracle bn roots hc hv
    exact backup_errors_nil cfg oracle bn roots hc hv
  · intro cfg oracle bn rn f hvc hvf hne
    have hb : (sha256 f.content ==
        sha256 (oracle.copiedContent (destPathOf rn f) f.content)) = false :=
      beq_eq_false_iff_ne.mpr hne
    simp [copied_successfully, verify_copy, hvc, hvf, hb]
  · intro cfg oracle bn roots r f hr hex hf hatt
    rw [backup_destFiles]
    simp only [destEntriesOf, List.mem_flatMap]
    refine ⟨r, hr, ?_⟩
    rw [if_pos hex]
    simp only [List.mem_flatMap]
    exact ⟨f, hf, by simp [hatt]⟩

/-- Witness for C1: on a fault-free run the error list is empty and the
file obtains its destination entry, and under the corrupting oracle the
mismatching file does not count as copied successfully. -/
theorem per_file_failure_isolation_witness :
    (backup_browser default_config faithfulOracle "chrome"
      [⟨"Default", true, [⟨"", "Bookmarks", [1, 2]⟩]⟩]).errors = [] ∧
    entryOf faithfulOracle "Default" ⟨"", "Bookmarks", [1, 2]⟩ ∈
      (backup_browser default_config faithfulOracle "chrome"
        [⟨"Default", true, [⟨"", "Bookmarks", [1, 2]⟩]⟩]).destFiles ∧
    copied_successfully default_config corruptOracle "chrome" "Default"
      ⟨"", "Bookmarks", [1, 2]⟩ = false :=
  ⟨per_file_failure_isolation.1 default_config faithfulOracle "chrome" _
      (fun _ => rfl) (fun _ => rfl),
   per_file_failure_isolation.2.2 default_config faithfulOracle "chrome" _
      ⟨"Default", true, [⟨"", "Bookmarks", [1, 2]⟩]⟩ ⟨"", "Bookmarks", [1, 2]⟩
      (by simp) rfl (by simp) (by decide),
   per_file_failure_isolation.2.1 default_config corruptOracle "chrome"
      "Default" ⟨"", "Bookmarks", [1, 2]⟩ rfl rfl (by decide)⟩

/-- Claim C2: the success flag of one invocation is true iff at least one
file was copied successfully during it (an enumerated file of an existing
root, not excluded, selected, whose copy completed and whose verification
passed) — an at-least-one-success policy, not an all-succeeded one; and
on a source tree of three files of which one is excluded by the substring
Cache, exactly two files are copied and success is true. -/
theorem success_iff_some_file_copied :
    (∀ (cfg : Config) (oracle : CopyOracle) (bn : String)
      (roots : List SourceRoot),
      ((backup_browser cfg oracle bn roots).success = true ↔
        ∃ r ∈ roots, r.existsOnDisk = true ∧
          ∃ f ∈ r.files,
            copied_successfully cfg oracle bn r.rootName f = true)) ∧
    (backup_browser default_config faithfulOracle "chrome"
      [⟨"Default", true, [⟨"", "Bookmarks", [1, 2]⟩, ⟨"", "History", [3]⟩,
        ⟨"", "CacheStorage", [4]⟩]⟩]).destFiles.length = 2 ∧
    (backup_browser default_config faithfulOracle "chrome"
      [⟨"Default", true, [⟨"", "Bookmarks", [1, 2]⟩, ⟨"", "History", [3]⟩,
        ⟨"", "CacheStorage", [4]⟩]⟩]).success = true := by
  refine ⟨?_, by decide, by decide⟩
  intro cfg oracle bn roots
  rw [backup_success]
  simp [List.any_eq_true]

/-- Claim C3: if no data category is enabled in the configuration, the
selector includes every file — _should_backup_file returns true for every
relative path and every browser type (fail-open). -/
theorem fileSelector_fail_open (opts : List (String × Bool))
    (file_name browser_type : String)
    (h : ∀ p ∈ opts, p.2 = false) :
    should_backup_file opts file_name browser_type = true := by
  have hh : opts.any (fun p => p.2) = false := by
    rw [List.any_eq_false]
    intro p hp
    simp [h p hp]
  simp [should_backup_file, hh]

/-- Witness for C3 at a concrete all-disabled option list. -/
theorem fileSelector_fail_open_witness :
    should_backup_file
      [("bookmarks", false), ("history", false), ("passwords", false),
       ("extensions", false), ("cookies", false), ("preferences", false)]
      "Cache/data.bin" "chrome" = true :=
  fileSelector_fail_open _ _ _ (by decide)

lemma run_scheduler_eq_map (tasks : List (String × Except Unit Bool)) :
    run_scheduler tasks = tasks.map resultOf := by
  have main : ∀ (ts : List (String × Except Unit Bool))
      (acc : List (String × Bool)),
      ts.foldl (fun results t => results ++ [resultOf t]) acc =
        acc ++ ts.map resultOf := by
    intro ts
    induction ts with
    | nil => intro acc; simp
    | cons t rest ih =>
      intro acc
      simp only [List.foldl_cons, List.map_cons]
      rw [ih]
      simp
  simpa [run_scheduler] using main tasks []

/-- Claim C4: the collected result list holds exactly one entry per
dispatched task in dispatch order; the entry at each position is a
function of that task alone (so no outcome disturbs a sibling); a task
whose future re-raises is recorded as false under its own id; a task that
returns a boolean is recorded under its own id with that boolean. -/
theorem scheduler_report_complete (tasks : List (String × Except Unit Bool)) :
    (run_scheduler tasks).length = tasks.length ∧
    (∀ (i : Nat) (h : i < tasks.length) (h2 : i < (run_scheduler tasks).length),
      (run_scheduler tasks).get ⟨i, h2⟩ = resultOf (tasks.get ⟨i, h⟩)) ∧
    (∀ (nm : String) (e : Unit), (nm, Except.error e) ∈ tasks →
      (nm, false) ∈ run_scheduler tasks) ∧
    (∀ (nm : String) (b : Bool), (nm, Except.ok b) ∈ tasks →
      (nm, b) ∈ run_scheduler tasks) := by
  refine ⟨?_, ?_, ?_, ?_⟩
  · rw [run_scheduler_eq_map, List.length_map]
  · intro i h h2
    simp [run_scheduler_eq_map, List.getElem_map]
  · intro nm e hmem
    rw [run_scheduler_eq_map]
    exact List.mem_map_of_mem resultOf hmem
  · intro nm b hmem
    rw [run_scheduler_eq_map]
    exact List.mem_map_of_mem resultOf hmem

/-- Witness for C4 at a concrete two-task dispatch with one raising
worker. -/
theorem scheduler_report_complete_witness :
    (run_scheduler [("chrome", Except.ok true),
      ("firefox", Except.error ())]).length = 2 ∧
    ("firefox", false) ∈
      run_scheduler [("chrome", Except.ok true), ("firefox", Except.error ())] ∧
    ("chrome", true) ∈
      run_scheduler [("chrome", Except.ok true), ("firefox", Except.error ())] :=
  ⟨(scheduler_report_complete _).1,
   (scheduler_report_complete _).2.2.1 "firefox" () (by simp),
   (scheduler_report_complete _).2.2.2 "chrome" true (by simp)⟩

lemma sweepDirs_noFail (retSec now : Int) (rmFail : String → Bool) :
    ∀ dirs : List DirEntry, (∀ d ∈ dirs, rmFail d.nm = false) →
      sweepDirs retSec now rmFail dirs =
        ((dirs.filter (fun d => d.isDir && decide (now - d.mtime > retSec))).map
          (fun d => d.nm), false) := by
  intro dirs
  induction dirs with
  | nil => intro _; rfl
  | cons d rest ih =>
    intro h
    have hd : rmFail d.nm = false := h d (List.mem_cons_self d rest)
    have hrest := ih (fun x hx => h x (List.mem_cons_of_mem d hx))
    simp only [sweepDirs, List.filter_cons]
    cases hdir : d.isDir with
    | false => simpa using hrest
    | true =>
      by_cases hage : now - d.mtime > retSec
      · simp [hage, hd, hrest]
      · simp [hage, hrest]

/-- Claim C5: the sweeper removes an immediate subdirectory of the backup
root iff now - mtime strictly exceeds retention_days * 86400 seconds (so
an age exactly equal to the threshold is retained); with retention_days
30, a directory aged 31 days is swept and one aged 29 days is retained. -/
theorem retention_sweep_iff :
    (∀ (cfg : Config) (now : Int) (rmFail : String → Bool)
      (dirs : List DirEntry), (∀ d ∈ dirs, rmFail d.nm = false) →
      (cleanup_old_backups cfg now rmFail dirs).1 =
        ((dirs.filter (fun d => d.isDir &&
          decide (now - d.mtime > (cfg.retention_days : Int) * 86400))).map
            (fun d => d.nm))) ∧
    (cleanup_old_backups default_config 0 (fun _ => false)
      [⟨"exact_threshold", -(30 * 86400), true⟩, ⟨"old31", -(31 * 86400), true⟩,
       ⟨"new29", -(29 * 86400), true⟩]).1 = ["old31"] := by
  constructor
  · intro cfg now rmFail dirs h
    have h86400 : (cfg.retention_days : Int) * 24 * 60 * 60 =
        (cfg.retention_days : Int) * 86400 := by ring
    rw [cleanup_old_backups, sweepDirs_noFail _ _ _ dirs h, h86400]
  · decide

/-- Witness for C5 at a concrete fault-free sweep. -/
theorem retention_sweep_iff_witness :
    (cleanup_old_backups default_config 0 (fun _ => false)
      [⟨"old31", -(31 * 86400), true⟩, ⟨"new29", -(29 * 86400), true⟩]).1 =
      (([⟨"old31", -(31 * 86400), true⟩,
        ⟨"new29", -(29 * 86400), true⟩] : List DirEntry).filter
          (fun d => d.isDir && decide (0 - d.mtime >
            ((default_config.retention_days : Int) * 86400)))).map
        (fun d => d.nm) :=
  retention_sweep_iff.1 default_config 0 (fun _ => false) _ (fun _ _ => rfl)

/-- Claim C6, counterexample: two aged subdirectories, deletion of the
first raises; the claim says the sweep still deletes the remaining aged
subdirectory old2, but the code removes nothing at all — the exception
escapes the loop to the single outer handler (which logs it, second
component true), so old2 is never examined even though it is aged and its
deletion would succeed. -/
theorem sweep_abort_on_delete_failure_cex :
    (0 : Int) - (-(40 * 86400)) > (default_config.retention_days : Int) * 86400 ∧
    ((fun nm => nm == "old1") : String → Bool) "old2" = false ∧
    cleanup_old_backups default_config 0 (fun nm => nm == "old1")
      [⟨"old1", -(31 * 86400), true⟩, ⟨"old2", -(40 * 86400), true⟩] =
      ([], true) :=
  ⟨by decide, by decide, by decide⟩

/-- Claim C6 (amended): a failure to delete one aged subdirectory is
logged and is not fatal — the call still returns normally, with the error
flag recorded — but it aborts the sweep: the remaining entries after the
failing directory are not examined, and nothing further is removed; the
directories removed are exactly the aged ones before the failing one. -/
theorem sweep_delete_failure_logged_but_aborts (cfg : Config) (now : Int)
    (rmFail : String → Bool) (pre post : List DirEntry) (d : DirEntry)
    (hpre : ∀ x ∈ pre, rmFail x.nm = false)
    (hdir : d.isDir = true)
    (hage : now - d.mtime > (cfg.retention_days : Int) * 86400)
    (hfail : rmFail d.nm = true) :
    cleanup_old_backups cfg now rmFail (pre ++ d :: post) =
      ((pre.filter (fun x => x.isDir && decide (now - x.mtime >
        (cfg.retention_days : Int) * 86400))).map (fun x => x.nm), true) := by
  have h86400 : (cfg.retention_days : Int) * 24 * 60 * 60 =
      (cfg.retention_days : Int) * 86400 := by ring
  rw [cleanup_old_backups, h86400]
  induction pre with
  | nil =>
    simp only [List.nil_append, List.filter_nil, List.map_nil]
    simp [sweepDirs, hdir, hage, hfail]
  | cons x rest ih =>
    have hx : rmFail x.nm = false := hpre x (List.mem_cons_self x rest)
    have hrest := ih (fun y hy => hpre y (List.mem_cons_of_mem x hy))
    simp only [List.cons_append, List.filter_cons, sweepDirs]
    cases hxdir : x.isDir with
    | false => simpa using hrest
    | true =>
      by_cases hxage : now - x.mtime > (cfg.retention_days : Int) * 86400
      · simp [hxage, hx, hrest]
      · simp [hxage, hrest]

/-- Witness for C6 at the concrete aborting sweep. -/
theorem sweep_delete_failure_logged_but_aborts_witness :
    cleanup_old_backups default_config 0 (fun nm => nm == "old1")
      [⟨"old1", -(31 * 86400), true⟩, ⟨"old2", -(40 * 86400), true⟩] =
      ((([] : List DirEntry).filter (fun x => x.isDir && decide ((0 : Int) -
        x.mtime > (default_config.retention_days : Int) * 86400))).map
          (fun x => x.nm), true) :=
  sweep_delete_failure_logged_but_aborts default_config 0
    (fun nm => nm == "old1") [] [⟨"old2", -(40 * 86400), true⟩]
    ⟨"old1", -(31 * 86400), true⟩ (fun _ h => absurd h (List.not_mem_nil _))
    rfl (by decide) rfl

/-- Configuration with every data category disabled — a legal
configuration the interactive menu can produce, under which the selector
is fail-open. -/
def optsOffConfig : Config :=
  { default_config with backup_options :=
      [("bookmarks", false), ("history", false), ("passwords", false),
       ("extensions", false), ("cookies", false), ("preferences", false)] }

/-- Claim C7, counterexample: a file whose relative path contains the
configured excluded substring Cache while its base name does not.  The
per-file exclusion check of the code inspects the base name only, so the
file is copied and a destination file is created for it, although the
claim says it must be skipped. -/
theorem excluded_path_still_copied_cex :
    pyIn "Cache" (joinRel "Cache" "data.bin") = true ∧
    optsOffConfig.excluded_files =
      [".lock", "Cache", "GPUCache", "CacheDictionary"] ∧
    (backup_browser optsOffConfig faithfulOracle "chrome"
      [⟨"Default", true, [⟨"Cache", "data.bin", [7]⟩]⟩]).destFiles =
      [("Default/Cache/data.bin", [7])] :=
  ⟨by decide, rfl, by decide⟩

/-- Claim C7 (amended): the per-file exclusion applies to the base name
only — every destination file one invocation creates originates from an
enumerated file of an existing source root whose base name contains no
configured excluded substring (and that passed the selector and whose
copy completed); a file whose directory path alone contains an excluded
substring is not thereby skipped. -/
theorem excluded_name_never_copied (cfg : Config) (oracle : CopyOracle)
    (bn : String) (roots : List SourceRoot) (e : String × List Nat)
    (he : e ∈ (backup_browser cfg oracle bn roots).destFiles) :
    ∃ r ∈ roots, r.existsOnDisk = true ∧ ∃ f ∈ r.files,
      cfg.excluded_files.all (fun ex => !(pyIn ex f.nm)) = true ∧
      should_backup_file cfg.backup_options (joinRel f.relDir f.nm) bn = true ∧
      oracle.copyFails (destPathOf r.rootName f) = false ∧
      e = entryOf oracle r.rootName f := by
  rw [backup_destFiles] at he
  simp only [destEntriesOf, List.mem_flatMap] at he
  obtain ⟨r, hr, hre⟩ := he
  by_cases hex : r.existsOnDisk = true
  case neg =>
    rw [if_neg hex] at hre
    exact absurd hre (List.not_mem_nil e)
  rw [if_pos hex] at hre
  simp only [List.mem_flatMap] at hre
  obtain ⟨f, hf, hfe⟩ := hre
  by_cases hatt : file_attempted cfg oracle bn r.rootName f = true
  case neg =>
    rw [if_neg hatt] at hfe
    exact absurd hfe (List.not_mem_nil e)
  rw [if_pos hatt] at hfe
  simp only [List.mem_singleton] at hfe
  have h3 := hatt
  simp only [file_attempted, Bool.and_eq_true, Bool.not_eq_true'] at h3
  have hexcl : cfg.excluded_files.all (fun ex => !(pyIn ex f.nm)) = true := by
    rw [List.all_eq_true]
    intro ex hx
    have hany := h3.1.1
    rw [List.any_eq_false] at hany
    simp [hany ex hx]
  exact ⟨r, hr, hex, f, hf, hexcl, h3.1.2, h3.2, hfe⟩

/-- Witness for C7 at a concrete creating run. -/
theorem excluded_name_never_copied_witness :
    ∃ r ∈ ([⟨"Default", true, [⟨"", "Bookmarks", [1]⟩]⟩] : List SourceRoot),
      r.existsOnDisk = true ∧ ∃ f ∈ r.files,
        default_config.excluded_files.all (fun ex => !(pyIn ex f.nm)) = true ∧
        should_backup_file default_config.backup_options
          (joinRel f.relDir f.nm) "chrome" = true ∧
        faithfulOracle.copyFails (destPathOf r.rootName f) = false ∧
        (("Default/Bookmarks", [1]) : String × List Nat) =
          entryOf faithfulOracle r.rootName f :=
  excluded_name_never_copied default_config faithfulOracle "chrome"
    [⟨"Default", true, [⟨"", "Bookmarks", [1]⟩]⟩] ("Default/Bookmarks", [1])
    (by decide)

/-- Claim C8: every recognized field missing from the loaded
configuration file takes its built-in default value, and a malformed
configuration file causes a non-fatal fall-back to the full built-in
default configuration. -/
theorem config_defaults_and_malformed_fallback (f : ConfigFile) :
    (f.max_workers = none →
      (load_config (Except.ok f)).max_workers = default_config.max_workers) ∧
    (f.verify_copies = none →
      (load_config (Except.ok f)).verify_copies = default_config.verify_copies) ∧
    (f.compression = none →
      (load_config (Except.ok f)).compression = default_config.compression) ∧
    (f.retention_days = none →
      (load_config (Except.ok f)).retention_days =
        default_config.retention_days) ∧
    (f.excluded_files = none →
      (load_config (Except.ok f)).excluded_files =
        default_config.excluded_files) ∧
    (f.browsers = none →
      (load_config (Except.ok f)).browsers = default_config.browsers) ∧
    (f.backup_options = none →
      (load_config (Except.ok f)).backup_options =
        default_config.backup_options) ∧
    load_config (Except.error ()) = default_config := by
  refine ⟨?_, ?_, ?_, ?_, ?_, ?_, ?_, rfl⟩ <;>
    intro h <;> simp [load_config, mergeConfig, h]

/-- Witness for C8 at a file carrying only retention_days. -/
theorem config_defaults_witness :
    (load_config (Except.ok { retention_days := some 7 })).max_workers =
      default_config.max_workers :=
  (config_defaults_and_malformed_fallback { retention_days := some 7 }).1 rfl

lemma restoreFold_success (oracle : RestoreOracle)
    (files : List (String × List Nat)) :
    ∀ acc : RestoreResult,
      (files.foldl (restoreFile oracle) acc).success = acc.success := by
  induction files with
  | nil => intro acc; rfl
  | cons f fs ih =>
    intro acc
    simp only [List.foldl_cons]
    rw [ih]
    simp only [restoreFile]
    by_cases h : oracle.copyFails f.1 = true <;> simp [h]

lemma restoreFold_restored_faithful (oracle : RestoreOracle)
    (hc : ∀ p, oracle.copyFails p = false)
    (hf : ∀ p c, oracle.copiedContent p c = c)
    (files : List (String × List Nat)) :
    ∀ acc : RestoreResult,
      (files.foldl (restoreFile oracle) acc).restored =
        acc.restored ++ files := by
  induction files with
  | nil => intro acc; simp
  | cons f fs ih =>
    intro acc
    simp only [List.foldl_cons]
    rw [ih]
    simp [restoreFile, hc, hf]

lemma restoreFold_restored_allFail (oracle : RestoreOracle)
    (files : List (String × List Nat))
    (hall : ∀ p, oracle.copyFails p = true) :
    ∀ acc : RestoreResult,
      (files.foldl (restoreFile oracle) acc).restored = acc.restored := by
  induction files with
  | nil => intro acc; rfl
  | cons f fs ih =>
    intro acc
    simp only [List.foldl_cons]
    rw [ih]
    simp [restoreFile, hall]

/-- Claim C9: round-trip — after backing up an application, restoring
that backup on a fault-free, faithful filesystem into an empty
destination reproduces every file the backup contains, with identical
content hashes. -/
theorem backup_restore_roundtrip (cfg : Config) (boracle : CopyOracle)
    (bn : String) (roots : List SourceRoot) (roracle : RestoreOracle)
    (hc : ∀ p, roracle.copyFails p = false)
    (hf : ∀ p c, roracle.copiedContent p c = c) :
    ∀ e ∈ (backup_browser cfg boracle bn roots).destFiles,
      ∃ c, (e.1, c) ∈ (restore_browser roracle true
          (backup_browser cfg boracle bn roots).destFiles).restored ∧
        sha256 c = sha256 e.2 := by
  intro e he
  refine ⟨e.2, ?_, rfl⟩
  have hrw : restore_browser roracle true
      (backup_browser cfg boracle bn roots).destFiles =
      (backup_browser cfg boracle bn roots).destFiles.foldl
        (restoreFile roracle) { success := true, restored := [], errors := [] } :=
    rfl
  rw [hrw, restoreFold_restored_faithful roracle hc hf]
  simpa using he

/-- Witness for C9 at a concrete one-file backup. -/
theorem backup_restore_roundtrip_witness :
    ∃ c, (("Default/Bookmarks" : String), c) ∈
        (restore_browser faithfulRestore true
          (backup_browser default_config faithfulOracle "chrome"
            [⟨"Default", true, [⟨"", "Bookmarks", [1, 2]⟩]⟩]).destFiles).restored ∧
      sha256 c = sha256 [1, 2] :=
  backup_restore_roundtrip default_config faithfulOracle "chrome"
    [⟨"Default", true, [⟨"", "Bookmarks", [1, 2]⟩]⟩] faithfulRestore
    (fun _ => rfl) (fun _ _ => rfl) ("Default/Bookmarks", [1, 2]) (by decide)

/-- Claim C10: the per-application restore returns success true whenever
the backup source path exists and no fault escapes the per-file handling
— even when every individual copy fails and zero files are restored —
and returns false when the source path does not exist. -/
theorem restore_success_policy :
    (∀ (oracle : RestoreOracle) (files : List (String × List Nat)),
      (restore_browser oracle true files).success = true ∧
      (restore_browser oracle false files).success = false) ∧
    (∀ (oracle : RestoreOracle) (files : List (String × List Nat)),
      (∀ p, oracle.copyFails p = true) →
      (restore_browser oracle true files).restored = []) := by
  constructor
  · intro oracle files
    constructor
    · have hrw : restore_browser oracle true files =
          files.foldl (restoreFile oracle)
            { success := true, restored := [], errors := [] } := rfl
      rw [hrw, restoreFold_success]
    · rfl
  · intro oracle files hall
    have hrw : restore_browser oracle true files =
        files.foldl (restoreFile oracle)
          { success := true, restored := [], errors := [] } := rfl
    rw [hrw]
    exact restoreFold_restored_allFail oracle files hall
      { success := true, restored := [], errors := [] }

/-- The restore oracle on which every single copy raises. -/
def allFailRestore : RestoreOracle :=
  { copyFails := fun _ => true
    copiedContent := fun _ c => c }

/-- Witness for C10: zero files restored yet success true. -/
theorem restore_success_policy_witness :
    (restore_browser allFailRestore true [("x", [1])]).restored = [] ∧
    (restore_browser allFailRestore true [("x", [1])]).success = true :=
  ⟨restore_success_policy.2 allFailRestore [("x", [1])] (fun _ => rfl),
   (restore_success_policy.1 allFailRestore [("x", [1])]).1⟩

end Aurora
